import Mathlib

/-!
Verification of the 3d-earth scene/animation core (src/main.js).

The per-frame animator, the starfield generator and the two fragment-shader
formulas (atmosphere Fresnel alpha, night-terminator smoothstep) are embedded
shallowly: JS numbers become real numbers, the mutable Three.js scene state
becomes an explicit record threaded through a step function, and the
unseeded RNG (Math.random) becomes an explicit stream of values in [0,1).
-/

open Real

namespace Earth3D

noncomputable section

/-- Per-satellite animated state: orbital speed (radians/second, fixed at
construction), the orbit group angle `rotation.y`, and the self-spin body
angle `satGroup.rotation.y` (src/main.js lines 254-259, 427-433). -/
structure SatState where
  speed : ℝ
  rotY : ℝ
  spinY : ℝ

/-- The mutable scene state touched by the per-frame `animate` function
(src/main.js lines 397-451): the `rotation.y` angle of each animated node
plus `previousTime` used for the delta computation. -/
structure WorldState where
  earthRotY : ℝ
  nightLightsRotY : ℝ
  cloudsRotY : ℝ
  moonOrbitRotY : ℝ
  moonMeshRotY : ℝ
  sats : List SatState
  starfieldRotY : ℝ
  previousTime : ℝ

/-- The clamped frame delta: `Math.min(currentTime - previousTime, 0.1)`
(src/main.js line 401). -/
def clampedDelta (tp tc : ℝ) : ℝ := min (tc - tp) 0.1

/-- `utcHours` as computed in the animator (src/main.js lines 406-410):
H + M/60 + S/3600 + ms/3600000 from the UTC components of `new Date()`. -/
def utcHours (h m s ms : ℕ) : ℝ :=
  (h : ℝ) + (m : ℝ) / 60 + (s : ℝ) / 3600 + (ms : ℝ) / 3600000

/-- The planet own-rotation angle written each frame:
`(utcHours / 24) * Math.PI * 2` (src/main.js line 412). -/
def earthAngleOf (h m s ms : ℕ) : ℝ := utcHours h m s ms / 24 * π * 2

/-- One execution of the per-frame `animate` body (src/main.js lines
397-451), restricted to the state it mutates.  Inputs: the prior state, the
frame clock `currentTime = performance.now()/1000`, and the UTC components
of `new Date()`. -/
def animate (w : WorldState) (currentTime : ℝ) (h m s ms : ℕ) : WorldState :=
  let delta := clampedDelta w.previousTime currentTime
  let earthY := earthAngleOf h m s ms
  { earthRotY := earthY
    nightLightsRotY := earthY
    cloudsRotY := earthY + currentTime * 0.003
    moonOrbitRotY := w.moonOrbitRotY + delta * 0.08
    moonMeshRotY := w.moonMeshRotY + delta * 0.08
    sats := w.sats.map (fun st =>
      { speed := st.speed
        rotY := st.rotY + delta * st.speed
        spinY := st.spinY + delta * 0.3 })
    starfieldRotY := w.starfieldRotY + delta * 0.001
    previousTime := currentTime }

/-- GLSL `clamp(x, lo, hi) = min(max(x, lo), hi)`. -/
def glslClamp (x lo hi : ℝ) : ℝ := min (max x lo) hi

/-- GLSL `smoothstep(edge0, edge1, x)`:
`t = clamp((x - edge0)/(edge1 - edge0), 0, 1); t*t*(3 - 2*t)`. -/
def smoothstep (edge0 edge1 x : ℝ) : ℝ :=
  let t := glslClamp ((x - edge0) / (edge1 - edge0)) 0 1
  t * t * (3 - 2 * t)

/-- The night-lights fragment shader terminator factor
`smoothstep(-0.1, -0.3, sunFacing)` (src/main.js line 173). -/
def nightFactor (sunFacing : ℝ) : ℝ := smoothstep (-0.1) (-0.3) sunFacing

/-- The atmosphere fragment shader alpha as a function of the Fresnel base
`f = 1 - dot(vNormal, vViewDir)`: `pow(f, 3.5) * 0.65`
(src/main.js lines 129-133). -/
def atmosphereAlpha (f : ℝ) : ℝ := f ^ (3.5 : ℝ) * 0.65

/-- The atmosphere fragment alpha from the dot product itself:
`fresnel = 1 - dot(vNormal, vViewDir)` then `pow(fresnel, 3.5) * 0.65`. -/
def atmosphereAlphaOfDot (d : ℝ) : ℝ := atmosphereAlpha (1 - d)

/-- One generated star (src/main.js lines 273-303): position on a spherical
shell, a size scalar, and a categorical color triple. -/
structure Star where
  pos : ℝ × ℝ × ℝ
  size : ℝ
  color : ℝ × ℝ × ℝ

/-- One loop iteration of `createStarfield` (src/main.js lines 273-303),
given the five `Math.random()` draws it consumes in order: radius, azimuth
theta, polar phi (inverse-transform), size, and the color bucket sample. -/
def mkStar (u0 u1 u2 u3 u4 : ℝ) : Star :=
  let r := 200 + u0 * 100
  let theta := u1 * π * 2
  let phi := Real.arccos (2 * u2 - 1)
  { pos := (r * Real.sin phi * Real.cos theta,
            r * Real.sin phi * Real.sin theta,
            r * Real.cos phi)
    size := 0.3 + u3 * 0.7
    color :=
      if u4 < 0.15 then (1.0, 0.85, 0.7)
      else if u4 < 0.3 then (0.7, 0.8, 1.0)
      else (1.0, 1.0, 1.0) }

/-- `starCount` (src/main.js line 268). -/
def starCount : ℕ := 6000

/-- `createStarfield` (src/main.js lines 267-321) over an explicit random
stream `rnd : ℕ → ℝ` standing for successive `Math.random()` results; star
`i` consumes draws `5*i .. 5*i+4` in program order. -/
def createStarfield (rnd : ℕ → ℝ) : List Star :=
  (List.range starCount).map (fun i =>
    mkStar (rnd (5 * i)) (rnd (5 * i + 1)) (rnd (5 * i + 2))
      (rnd (5 * i + 3)) (rnd (5 * i + 4)))

/-- Euclidean distance of a point from the origin. -/
def dist3 (p : ℝ × ℝ × ℝ) : ℝ := Real.sqrt (p.1 ^ 2 + p.2.1 ^ 2 + p.2.2 ^ 2)

/-- Modelled from the spec: reduction of an angle modulo 2π into [0, 2π),
as used by the spec sentence "equals (initial + s·d1 + s·d2) mod 2π".  The
source never reduces stored angles; this definition exists only to compare
the spec formula with the source behaviour. -/
def specMod2pi (x : ℝ) : ℝ := x - 2 * π * ⌊x / (2 * π)⌋

/-- Modelled from the spec: "wall-clock seconds since UTC midnight", the
quantity the spec claims drives the cloud drift term. -/
def specUtcSeconds (h m s ms : ℕ) : ℝ := utcHours h m s ms * 3600

/-- Concrete world used for the C5 witness: a single satellite of speed 1
at orbit angle 0. -/
def satWitnessWorld : WorldState :=
  ⟨0, 0, 0, 0, 0, [⟨1, 0, 0⟩], 0, 0⟩

/-- Concrete world used for the C5 counterexample: a single satellite of
speed 0 whose orbit-group angle is 7 radians. -/
def satCounterWorld : WorldState :=
  ⟨0, 0, 0, 0, 0, [⟨0, 7, 0⟩], 0, 0⟩

/-- Concrete world used for the C8 counterexample: all angles zero,
`previousTime = 0`, no satellites. -/
def cloudCounterWorld : WorldState :=
  ⟨0, 0, 0, 0, 0, [], 0, 0⟩

/-- Concrete world used for the C9 counterexample: all angles zero but
`previousTime = 1`, so a frame at `currentTime = 0` sees a negative delta. -/
def negDeltaWorld : WorldState :=
  ⟨0, 0, 0, 0, 0, [⟨1, 0, 0⟩], 0, 1⟩

/-- Constant-zero random stream, used to instantiate the starfield theorem. -/
def zeroRnd : ℕ → ℝ := fun _ => 0

/-- The assembled scene's initial animated state: all angles zero, the three
satellites with speeds 0.5, 0.3 and 0.7 (src/main.js lines 376-379), and
`previousTime = 0`. -/
def initialWorld : WorldState :=
  ⟨0, 0, 0, 0, 0, [⟨0.5, 0, 0⟩, ⟨0.3, 0, 0⟩, ⟨0.7, 0, 0⟩], 0, 0⟩

end

end Earth3D

namespace Earth3D

/-- C2: after every execution of the animator, the night-lights shell's
own-rotation angle equals the planet's own-rotation angle exactly, for every
prior state and every time input (src/main.js lines 412-413). -/
theorem night_lights_coregistered (w : WorldState) (t : ℝ) (h m s ms : ℕ) :
    (animate w t h m s ms).nightLightsRotY = (animate w t h m s ms).earthRotY := rfl

/-- C3: the delta fed into every angle integration (moon orbit, moon spin,
satellites, starfield) is `min(t_curr - t_prev, 0.1)`, hence always ≤ 0.1;
a 5-second stall yields delta 0.1 (src/main.js lines 400-402, 423-436). -/
theorem delta_clamped (w : WorldState) (t : ℝ) (h m s ms : ℕ) :
    (animate w t h m s ms).moonOrbitRotY
        = w.moonOrbitRotY + min (t - w.previousTime) 0.1 * 0.08
      ∧ (animate w t h m s ms).moonMeshRotY
        = w.moonMeshRotY + min (t - w.previousTime) 0.1 * 0.08
      ∧ (animate w t h m s ms).sats = w.sats.map (fun st =>
          ⟨st.speed, st.rotY + min (t - w.previousTime) 0.1 * st.speed,
            st.spinY + min (t - w.previousTime) 0.1 * 0.3⟩)
      ∧ (animate w t h m s ms).starfieldRotY
        = w.starfieldRotY + min (t - w.previousTime) 0.1 * 0.001
      ∧ clampedDelta w.previousTime t ≤ 0.1
      ∧ clampedDelta 0 5 = 0.1 := by
  refine ⟨rfl, rfl, rfl, rfl, ?_, ?_⟩
  · exact min_le_right _ _
  · unfold clampedDelta
    rw [min_eq_right]
    norm_num

/-- C1: the planet own-rotation angle written by the animator equals
`(utcHours/24) * 2π`, is a pure function of the UTC components alone
(independent of the prior state and of the frame clock), and takes the
values 0, π/2 and π at UTC 00:00:00.000, 06:00:00.000 and 12:00:00.000
(src/main.js lines 404-412). -/
theorem earth_angle_utc_pure (w w2 : WorldState) (t t2 : ℝ) (h m s ms : ℕ) :
    (animate w t h m s ms).earthRotY = utcHours h m s ms / 24 * (2 * π)
      ∧ (animate w t h m s ms).earthRotY = (animate w2 t2 h m s ms).earthRotY
      ∧ (animate w t 0 0 0 0).earthRotY = 0
      ∧ (animate w t 6 0 0 0).earthRotY = π / 2
      ∧ (animate w t 12 0 0 0).earthRotY = π := by
  refine ⟨?_, rfl, ?_, ?_, ?_⟩ <;>
    simp [animate, earthAngleOf, utcHours] <;> ring

/-- C8 (amended): the cloud shell angle written each frame equals the planet
angle plus `currentTime * 0.003`, where `currentTime` is the animator's
frame-clock input `performance.now()/1000` — seconds since the page's time
origin, not seconds since UTC midnight (src/main.js lines 419-420).  It is a
pure function of the frame's time inputs, independent of the prior state. -/
theorem clouds_drift_frame_clock (w w2 : WorldState) (t : ℝ) (h m s ms : ℕ) :
    (animate w t h m s ms).cloudsRotY
        = (animate w t h m s ms).earthRotY + t * 0.003
      ∧ (animate w t h m s ms).cloudsRotY = (animate w2 t h m s ms).cloudsRotY := by
  exact ⟨rfl, rfl⟩

/-- C8 counterexample: at frame clock `currentTime = 0` and UTC time
06:00:00.000, the cloud angle written by the code differs from
planet angle + (seconds since UTC midnight) × 0.003, refuting the claim
that the drift term uses seconds since UTC midnight. -/
theorem clouds_drift_utc_seconds_false :
    ¬ ((animate cloudCounterWorld 0 6 0 0 0).cloudsRotY
        = (animate cloudCounterWorld 0 6 0 0 0).earthRotY
          + specUtcSeconds 6 0 0 0 * 0.003) := by
  simp only [animate, cloudCounterWorld, specUtcSeconds, utcHours, earthAngleOf]
  norm_num

/-- C9 (amended): a frame whose elapsed delta is exactly 0 (frame clock equal
to the stored previous time) leaves every integrated angle unchanged — moon
orbit, moon spin, satellite orbit and spin angles, starfield rotation
(src/main.js lines 400-402, 423-436).  Negative deltas are not a no-op. -/
theorem zero_delta_noop (w : WorldState) (h m s ms : ℕ) :
    (animate w w.previousTime h m s ms).moonOrbitRotY = w.moonOrbitRotY
      ∧ (animate w w.previousTime h m s ms).moonMeshRotY = w.moonMeshRotY
      ∧ (animate w w.previousTime h m s ms).sats = w.sats
      ∧ (animate w w.previousTime h m s ms).starfieldRotY = w.starfieldRotY := by
  have hd : clampedDelta w.previousTime w.previousTime = 0 := by
    unfold clampedDelta
    rw [sub_self]
    rw [min_eq_left]
    norm_num
  simp [animate, hd]

/-- C9 counterexample: a frame with negative elapsed delta (frame clock 0,
previous time 1, so delta = min(-1, 0.1) = -1) changes the moon orbit
angle, so delta ≤ 0 frames are not all no-ops as the claim states. -/
theorem negative_delta_not_noop :
    ¬ ((animate negDeltaWorld 0 0 0 0 0).moonOrbitRotY
        = negDeltaWorld.moonOrbitRotY) := by
  simp only [animate, negDeltaWorld, clampedDelta]
  norm_num

/-- C5 (amended): over two consecutive frames with clamped deltas d1 and d2,
a satellite of angular speed s advances its orbit-group angle from a0 to
exactly a0 + s·d1 + s·d2 — the raw accumulated value, with no reduction
modulo 2π — so the result depends only on the sum d1 + d2
(src/main.js lines 427-433). -/
theorem sat_two_frames_sum (w : WorldState) (a0 sp s d1 d2 t0 : ℝ)
    (hsat : w.sats = [⟨s, a0, sp⟩]) (hprev : w.previousTime = t0)
    (hd1 : d1 ≤ 0.1) (hd2 : d2 ≤ 0.1) (h1 m1 s1 ms1 h2 m2 s2 ms2 : ℕ) :
    ((animate (animate w (t0 + d1) h1 m1 s1 ms1)
        (t0 + d1 + d2) h2 m2 s2 ms2).sats.map SatState.rotY)
      = [a0 + s * d1 + s * d2] := by
  have e1 : clampedDelta t0 (t0 + d1) = d1 := by
    unfold clampedDelta
    rw [add_sub_cancel_left]
    exact min_eq_left hd1
  have e2 : clampedDelta (t0 + d1) (t0 + d1 + d2) = d2 := by
    unfold clampedDelta
    rw [add_sub_cancel_left]
    exact min_eq_left hd2
  simp only [animate, hsat, hprev, e1, e2, List.map_map, List.map_cons,
    List.map_nil, Function.comp]
  rw [List.cons.injEq]
  constructor
  · ring
  · rfl

/-- C5 witness: the two-frame satellite theorem applied to a one-satellite
world of speed 1 starting at angle 0, with deltas 0.1 and 0.1. -/
theorem sat_two_frames_sum_witness :
    ((animate (animate satWitnessWorld (0 + 0.1) 0 0 0 0)
        (0 + 0.1 + 0.1) 0 0 0 0).sats.map SatState.rotY)
      = [0 + 1 * 0.1 + 1 * 0.1] :=
  sat_two_frames_sum satWitnessWorld 0 0 1 0.1 0.1 0 rfl rfl
    (le_refl _) (le_refl _) 0 0 0 0 0 0 0 0

/-- C5 counterexample: with a0 = 7, s = 0 and clamped deltas 0 and 0, the
stored orbit-group angle after two frames is 7, not
(7 + 0·0 + 0·0) mod 2π = 7 - 2π: the code never reduces the stored angle
modulo 2π. -/
theorem sat_two_frames_mod_false :
    ¬ (((animate (animate satCounterWorld 0 0 0 0 0) 0 0 0 0 0).sats.map
        SatState.rotY) = [specMod2pi (7 + 0 * 0 + 0 * 0)]) := by
  have hz : clampedDelta (0 : ℝ) 0 = 0 := by
    unfold clampedDelta
    rw [sub_self]
    rw [min_eq_left]
    norm_num
  have hfl : ⌊(7 : ℝ) / (2 * π)⌋ = (1 : ℤ) := by
    have hpi1 : (3 : ℝ) < π := Real.pi_gt_three
    have hpi2 : π < 3.15 := Real.pi_lt_d2
    have h2pi : (0 : ℝ) < 2 * π := by linarith
    rw [Int.floor_eq_iff]
    constructor
    · rw [le_div_iff₀ h2pi]
      push_cast
      linarith
    · rw [div_lt_iff₀ h2pi]
      push_cast
      linarith
  simp only [animate, satCounterWorld, hz, List.map_map, List.map_cons,
    List.map_nil, Function.comp, List.cons.injEq, and_true]
  norm_num [specMod2pi, hfl]
  have hpi1 : (3 : ℝ) < π := Real.pi_gt_three
  intro hcontra
  nlinarith

/-- C10: for bounded UTC components (H ≤ 23, M ≤ 59, S ≤ 59, ms ≤ 999, as a
Date always supplies), the planet own-rotation angle written by the animator
lies in [0, 2π), and so does the night-lights shell's angle
(src/main.js lines 404-413). -/
theorem earth_angle_in_range (w : WorldState) (t : ℝ) (h m s ms : ℕ)
    (hh : h ≤ 23) (hm : m ≤ 59) (hs : s ≤ 59) (hms : ms ≤ 999) :
    (0 ≤ (animate w t h m s ms).earthRotY
        ∧ (animate w t h m s ms).earthRotY < 2 * π)
      ∧ (0 ≤ (animate w t h m s ms).nightLightsRotY
        ∧ (animate w t h m s ms).nightLightsRotY < 2 * π) := by
  have hu0 : 0 ≤ utcHours h m s ms := by
    unfold utcHours
    positivity
  have hu24 : utcHours h m s ms < 24 := by
    have c1 : (h : ℝ) ≤ 23 := by exact_mod_cast hh
    have c2 : (m : ℝ) ≤ 59 := by exact_mod_cast hm
    have c3 : (s : ℝ) ≤ 59 := by exact_mod_cast hs
    have c4 : (ms : ℝ) ≤ 999 := by exact_mod_cast hms
    unfold utcHours
    nlinarith
  have hpi : (0 : ℝ) < π := Real.pi_pos
  have key : (animate w t h m s ms).earthRotY = utcHours h m s ms / 24 * π * 2 := rfl
  have keyN : (animate w t h m s ms).nightLightsRotY
      = utcHours h m s ms / 24 * π * 2 := rfl
  have hlow : 0 ≤ utcHours h m s ms / 24 * π * 2 := by positivity
  have hhigh : utcHours h m s ms / 24 * π * 2 < 2 * π := by
    nlinarith
  rw [key, keyN]
  exact ⟨⟨hlow, hhigh⟩, hlow, hhigh⟩

/-- C10 witness: the range theorem at the largest valid UTC components
23:59:59.999 on the assembled scene's initial state. -/
theorem earth_angle_in_range_witness :
    (0 ≤ (animate initialWorld 0 23 59 59 999).earthRotY
        ∧ (animate initialWorld 0 23 59 59 999).earthRotY < 2 * π)
      ∧ (0 ≤ (animate initialWorld 0 23 59 59 999).nightLightsRotY
        ∧ (animate initialWorld 0 23 59 59 999).nightLightsRotY < 2 * π) :=
  earth_angle_in_range initialWorld 0 23 59 59 999
    (by decide) (by decide) (by decide) (by decide)

/-- C7: the atmosphere fragment alpha equals pow(f, 3.5) × 0.65 of the
Fresnel base f = 1 - dot(normal, viewDir), and it is monotonically
non-decreasing in f on [0, 1] (src/main.js lines 129-133). -/
theorem atmosphere_alpha_monotone (f1 f2 : ℝ)
    (h0 : 0 ≤ f1) (h12 : f1 ≤ f2) (_h1 : f2 ≤ 1) :
    atmosphereAlpha f1 ≤ atmosphereAlpha f2
      ∧ ∀ d : ℝ, atmosphereAlphaOfDot d = (1 - d) ^ (3.5 : ℝ) * 0.65 := by
  constructor
  · unfold atmosphereAlpha
    have hrp : f1 ^ (3.5 : ℝ) ≤ f2 ^ (3.5 : ℝ) :=
      Real.rpow_le_rpow h0 h12 (by norm_num)
    have h65 : (0 : ℝ) ≤ 0.65 := by norm_num
    exact mul_le_mul_of_nonneg_right hrp h65
  · intro d
    rfl

/-- C7 witness: the monotonicity theorem at the endpoints f1 = 0, f2 = 1. -/
theorem atmosphere_alpha_monotone_witness :
    atmosphereAlpha 0 ≤ atmosphereAlpha 1
      ∧ atmosphereAlphaOfDot 0 = (1 - 0) ^ (3.5 : ℝ) * 0.65 := by
  have h := atmosphere_alpha_monotone 0 1 (le_refl 0) zero_le_one (le_refl 1)
  exact ⟨h.1, h.2 0⟩

/-- The clamp of the GLSL smoothstep saturates at 0 below the unit interval. -/
theorem glslClamp_of_nonpos {t : ℝ} (h : t ≤ 0) : glslClamp t 0 1 = 0 := by
  unfold glslClamp
  rw [max_eq_right h]
  exact min_eq_left (by norm_num)

/-- The clamp of the GLSL smoothstep saturates at 1 above the unit interval. -/
theorem glslClamp_of_one_le {t : ℝ} (h : 1 ≤ t) : glslClamp t 0 1 = 1 := by
  unfold glslClamp
  rw [max_eq_left (le_trans (by norm_num) h)]
  exact min_eq_right h

/-- The clamp of the GLSL smoothstep is the identity on the unit interval. -/
theorem glslClamp_of_mem {t : ℝ} (h0 : 0 ≤ t) (h1 : t ≤ 1) : glslClamp t 0 1 = t := by
  unfold glslClamp
  rw [max_eq_left h0]
  exact min_eq_left h1

/-- The night terminator factor with its interpolation parameter written as
the affine map -5·x - 0.5 (the reversed smoothstep edges -0.1, -0.3 make the
parameter decrease in sunFacing). -/
theorem nightFactor_formula (x : ℝ) :
    nightFactor x
      = glslClamp (-5 * x - 0.5) 0 1 * glslClamp (-5 * x - 0.5) 0 1
        * (3 - 2 * glslClamp (-5 * x - 0.5) 0 1) := by
  simp only [nightFactor, smoothstep]
  have harg : (x - (-0.1)) / ((-0.3) - (-0.1)) = -5 * x - 0.5 := by
    norm_num
    ring
  rw [harg]

/-- C6: the night terminator factor smoothstep(-0.1, -0.3, sunFacing) is 0
whenever sunFacing ≥ -0.1, is 1 whenever sunFacing ≤ -0.3, and is strictly
monotone in between — ramping from 0 up to 1 as sunFacing decreases across
(-0.3, -0.1) (src/main.js line 173). -/
theorem night_factor_terminator (x1 x2 : ℝ) :
    ((-0.1) ≤ x1 → nightFactor x1 = 0)
      ∧ (x1 ≤ -0.3 → nightFactor x1 = 1)
      ∧ (-0.3 < x1 → x1 < x2 → x2 < -0.1 → nightFactor x2 < nightFactor x1) := by
  refine ⟨?_, ?_, ?_⟩
  · intro hx
    rw [nightFactor_formula, glslClamp_of_nonpos (by linarith)]
    ring
  · intro hx
    rw [nightFactor_formula, glslClamp_of_one_le (by linarith)]
    norm_num
  · intro ha hb hc
    have e1 : glslClamp (-5 * x1 - 0.5) 0 1 = -5 * x1 - 0.5 :=
      glslClamp_of_mem (by linarith) (by linarith)
    have e2 : glslClamp (-5 * x2 - 0.5) 0 1 = -5 * x2 - 0.5 :=
      glslClamp_of_mem (by linarith) (by linarith)
    rw [nightFactor_formula x1, nightFactor_formula x2, e1, e2]
    have hu1pos : (0 : ℝ) < -5 * x1 - 0.5 := by linarith
    have hu2pos : (0 : ℝ) < -5 * x2 - 0.5 := by linarith
    have hu1lt : (-5 * x1 - 0.5 : ℝ) < 1 := by linarith
    have hu2lt : (-5 * x2 - 0.5 : ℝ) < 1 := by linarith
    have hultu : (-5 * x2 - 0.5 : ℝ) < -5 * x1 - 0.5 := by linarith
    nlinarith [mul_pos (sub_pos.mpr hultu) (mul_pos hu1pos (sub_pos.mpr hu1lt)),
      mul_pos (sub_pos.mpr hultu) (mul_pos hu2pos (sub_pos.mpr hu2lt)),
      mul_pos (sub_pos.mpr hultu) (mul_pos hu1pos (sub_pos.mpr hu2lt)),
      mul_pos (sub_pos.mpr hultu) (mul_pos hu2pos (sub_pos.mpr hu1lt))]

/-- C6 witness: the terminator theorem at sunFacing 0 (lit side),
-0.5 (dark side), and the strictly ordered pair -0.25 < -0.15 inside the
transition band. -/
theorem night_factor_terminator_witness :
    nightFactor 0 = 0 ∧ nightFactor (-0.5) = 1
      ∧ nightFactor (-0.15) < nightFactor (-0.25) :=
  ⟨(night_factor_terminator 0 0).1 (by norm_num),
    (night_factor_terminator (-0.5) 0).2.1 (by norm_num),
    (night_factor_terminator (-0.25) (-0.15)).2.2
      (by norm_num) (by norm_num) (by norm_num)⟩

/-- Squared norm of a point given in spherical coordinates collapses to the
squared radius. -/
theorem sphericalNormSq (r a b : ℝ) :
    (r * Real.sin b * Real.cos a) ^ 2 + (r * Real.sin b * Real.sin a) ^ 2
      + (r * Real.cos b) ^ 2 = r ^ 2 := by
  have h1 := Real.sin_sq_add_cos_sq a
  have h2 := Real.sin_sq_add_cos_sq b
  linear_combination (r ^ 2 * Real.sin b ^ 2) * h1 + r ^ 2 * h2

/-- Distance from the origin of a generated star is exactly its sampled
shell radius 200 + u0·100. -/
theorem mkStar_dist (u0 u1 u2 u3 u4 : ℝ) (h0 : 0 ≤ u0) :
    dist3 (mkStar u0 u1 u2 u3 u4).pos = 200 + u0 * 100 := by
  have h0r : (0 : ℝ) ≤ 200 + u0 * 100 := by linarith
  simp only [mkStar, dist3]
  rw [sphericalNormSq, Real.sqrt_sq h0r]

/-- C4: the starfield generator produces exactly 6000 points, and for every
random stream with values in [0,1): every point's distance from the origin
lies in [200,300], every size scalar lies in [0.3,1.0], and every color is
one of the three categorical triples (src/main.js lines 267-321). -/
theorem starfield_props (rnd : ℕ → ℝ) (hr : ∀ n, 0 ≤ rnd n ∧ rnd n < 1) :
    (createStarfield rnd).length = 6000
      ∧ ∀ st ∈ createStarfield rnd,
          (200 ≤ dist3 st.pos ∧ dist3 st.pos ≤ 300)
          ∧ (0.3 ≤ st.size ∧ st.size ≤ 1)
          ∧ (st.color = (1.0, 0.85, 0.7) ∨ st.color = (0.7, 0.8, 1.0)
              ∨ st.color = (1.0, 1.0, 1.0)) := by
  constructor
  · simp [createStarfield, starCount]
  · intro st hst
    simp only [createStarfield, List.mem_map, List.mem_range] at hst
    obtain ⟨i, _hi, rfl⟩ := hst
    obtain ⟨h00, h01⟩ := hr (5 * i)
    obtain ⟨h30, h31⟩ := hr (5 * i + 3)
    refine ⟨?_, ?_, ?_⟩
    · rw [mkStar_dist _ _ _ _ _ h00]
      constructor <;> nlinarith
    · simp only [mkStar]
      constructor <;> nlinarith
    · simp only [mkStar]
      split_ifs
      · left
        rfl
      · right
        left
        rfl
      · right
        right
        rfl

/-- C4 witness: the starfield theorem applied to the constant-zero random
stream. -/
theorem starfield_props_witness :
    (createStarfield zeroRnd).length = 6000 ∧ (0 ≤ zeroRnd 0 ∧ zeroRnd 0 < 1) := by
  have hz : ∀ n, 0 ≤ zeroRnd n ∧ zeroRnd n < 1 := fun _ => ⟨le_refl 0, zero_lt_one⟩
  exact ⟨(starfield_props zeroRnd hz).1, hz 0⟩

end Earth3D
